/-
Verification of the aws-lightrag-doc-generate services against their
natural-language specification.

The Python services are shallowly embedded as executable Lean functions:
  * `app/services/planning_agent.py`   → `Planning` namespace
  * `app/services/critic_agent.py`     → `Critic` namespace
  * `app/services/document_generator.py` → `Generator` namespace

External effects (LLM completions, S3 storage, the Context7 and
knowledge-base providers, Jinja template rendering) are modelled as
explicit oracle parameters; everything the repository computes itself is
translated instruction by instruction.
-/
import Mathlib

namespace Planning

/-- `PlanStatus` enum from planning_agent.py. -/
inductive PlanStatus where
  | pending_review
  | approved
  | generating
  | completed
  | failed
deriving DecidableEq, Repr

/-- The `.value` string of each `PlanStatus` member. -/
def PlanStatus.value : PlanStatus → String
  | .pending_review => "pending_review"
  | .approved => "approved"
  | .generating => "generating"
  | .completed => "completed"
  | .failed => "failed"

/-- `PlanStatus(s)`: enum lookup by value; raises (here: `none`) on an
unknown string. -/
def planStatusOfValue : String → Option PlanStatus
  | "pending_review" => some .pending_review
  | "approved" => some .approved
  | "generating" => some .generating
  | "completed" => some .completed
  | "failed" => some .failed
  | _ => none

/-- `SectionOutline` dataclass. -/
structure SectionOutline where
  title : String
  description : String
  subsections : List String
  estimated_length : String
deriving DecidableEq, Repr

/-- The dictionary produced by `dataclasses.asdict` on a `SectionOutline`
(one key per field). -/
structure SectionDict where
  title : String
  description : String
  subsections : List String
  estimated_length : String
deriving DecidableEq, Repr

/-- `asdict(s)` for a section. -/
def asdictSection (s : SectionOutline) : SectionDict :=
  { title := s.title
    description := s.description
    subsections := s.subsections
    estimated_length := s.estimated_length }

/-- `SectionOutline(**s)`: rebuild a section from its keyword dict. -/
def sectionOfDict (d : SectionDict) : SectionOutline :=
  { title := d.title
    description := d.description
    subsections := d.subsections
    estimated_length := d.estimated_length }

/-- `DocumentPlan` dataclass.  The `metadata` field is a `Dict[str, Any]`
that the (de)serializers pass through untouched, so it is kept as a type
parameter `μ`. -/
structure DocumentPlan (μ : Type) where
  plan_id : String
  status : PlanStatus
  user_request : String
  document_type : String
  title : String
  sections : List SectionOutline
  created_at : String
  updated_at : String
  user_comments : List String
  final_document : Option String
  metadata : μ
deriving DecidableEq, Repr

/-- The dictionary produced by `DocumentPlan.to_dict` (one entry per key
it emits; `to_dict` always emits every key, so all fields are present). -/
structure PlanDict (μ : Type) where
  plan_id : String
  status : String
  user_request : String
  document_type : String
  title : String
  sections : List SectionDict
  created_at : String
  updated_at : String
  user_comments : List String
  final_document : Option String
  metadata : μ
deriving DecidableEq, Repr

/-- `DocumentPlan.to_dict`. -/
def DocumentPlan.to_dict (p : DocumentPlan μ) : PlanDict μ :=
  { plan_id := p.plan_id
    status := p.status.value
    user_request := p.user_request
    document_type := p.document_type
    title := p.title
    sections := p.sections.map asdictSection
    created_at := p.created_at
    updated_at := p.updated_at
    user_comments := p.user_comments
    final_document := p.final_document
    metadata := p.metadata }

/-- `DocumentPlan.from_dict`.  `PlanStatus(data["status"])` raises on an
unknown status string, modelled by `Option`. -/
def DocumentPlan.from_dict (d : PlanDict μ) : Option (DocumentPlan μ) :=
  match planStatusOfValue d.status with
  | none => none
  | some st =>
    some
      { plan_id := d.plan_id
        status := st
        user_request := d.user_request
        document_type := d.document_type
        title := d.title
        sections := d.sections.map sectionOfDict
        created_at := d.created_at
        updated_at := d.updated_at
        user_comments := d.user_comments
        final_document := d.final_document
        metadata := d.metadata }

/-- `PlanningAgent.approve_plan`.  The stored plans are modelled by the
lookup function `get_plan`; `now` is the `datetime.utcnow().isoformat()`
oracle.  The method loads the plan, sets `status` and `updated_at`,
persists, and returns the mutated plan (`None` when the plan is absent). -/
def approve_plan (get_plan : String → Option (DocumentPlan μ)) (now : String)
    (plan_id : String) : Option (DocumentPlan μ) :=
  match get_plan plan_id with
  | none => none
  | some plan => some { plan with status := .approved, updated_at := now }

/-- Metadata representation used by `generate_from_plan`, which inserts an
"error" key on failure (`plan.metadata["error"] = str(e)`). -/
abbrev Meta : Type := List (String × String)

/-- `PlanningAgent.generate_from_plan`.  `get_plan` models the store,
`genResult` the outcome of `DocumentGenerator().generate(...)` (content on
success, exception text on failure), `now` the timestamp oracle. -/
def generate_from_plan (get_plan : String → Option (DocumentPlan Meta))
    (genResult : Except String String) (now : String)
    (plan_id : String) : Option (DocumentPlan Meta) :=
  match get_plan plan_id with
  | none => none
  | some plan =>
    if plan.status ≠ PlanStatus.approved then none
    else
      -- status → generating, persisted before generation starts
      let plan := { plan with status := PlanStatus.generating }
      match genResult with
      | .ok content =>
          some { plan with
                  final_document := some content
                  status := PlanStatus.completed
                  updated_at := now }
      | .error e =>
          some { plan with
                  status := PlanStatus.failed
                  metadata := plan.metadata ++ [("error", e)] }

/-- A sample stored plan used to instantiate the planning theorems. -/
def egPlan : DocumentPlan Meta :=
  { plan_id := "p1"
    status := PlanStatus.pending_review
    user_request := "u"
    document_type := "srs"
    title := "T"
    sections := [⟨"s1", "d1", ["a", "b"], "short"⟩]
    created_at := "2024-01-01T00:00:00"
    updated_at := "2024-01-01T00:00:00"
    user_comments := ["c1", "c2"]
    final_document := none
    metadata := [("k", "v")] }

/-- A sample plan store holding exactly `egPlan` under id "p1". -/
def egStore : String → Option (DocumentPlan Meta) :=
  fun plan_id => if plan_id = "p1" then some egPlan else none

end Planning

namespace Critic

/-! ### Python string primitives

The validators work on `str` values; we model them as `List Char` with
helpers matching the CPython semantics used by critic_agent.py. -/

/-- The characters matched by `str.strip()` / regex `\s` (ASCII range). -/
def pyWs (c : Char) : Bool :=
  c = ' ' || c = '\t' || c = '\n' || c = '\r' || c = Char.ofNat 11 || c = Char.ofNat 12

/-- `s.strip()`. -/
def pyStrip (cs : List Char) : List Char :=
  ((cs.dropWhile pyWs).reverse.dropWhile pyWs).reverse

/-- `s.lstrip()`. -/
def pyLstrip (cs : List Char) : List Char := cs.dropWhile pyWs

/-- `s.rstrip()`. -/
def pyRstrip (cs : List Char) : List Char := (cs.reverse.dropWhile pyWs).reverse

/-- `s.split("\n")`: always yields at least one piece (`"".split("\n") == [""]`). -/
def splitOnNl : List Char → List (List Char)
  | [] => [[]]
  | '\n' :: rest => [] :: splitOnNl rest
  | c :: rest =>
    match splitOnNl rest with
    | [] => [[c]]
    | l :: ls => (c :: l) :: ls

/-- Index of the first occurrence of `needle` in `hay` (`str.find`-style). -/
def findSubIdx (needle : List Char) : List Char → Option Nat
  | [] => if needle.isPrefixOf ([] : List Char) then some 0 else none
  | c :: rest =>
    if needle.isPrefixOf (c :: rest) then some 0
    else (findSubIdx needle rest).map (· + 1)

/-- The backtick character (U+0060). -/
def backtickChar : Char := Char.ofNat 96

/-- `s.count("```")`: non-overlapping count of triple backticks (on a
match the scan resumes after the matched triple). -/
def countTriple : List Char → Nat
  | c1 :: c2 :: c3 :: rest =>
    if c1 = backtickChar && c2 = backtickChar && c3 = backtickChar then
      1 + countTriple rest
    else countTriple (c2 :: c3 :: rest)
  | _ => 0

/-- Split `xs` at the first occurrence of `c`: the characters before it and
the remainder after it (used by the link matcher for `[^\]]*` / `[^)]*`). -/
def takeUntil (c : Char) : List Char → Option (List Char × List Char)
  | [] => none
  | x :: xs =>
    if x = c then some ([], xs)
    else (takeUntil c xs).map (fun p => (x :: p.1, p.2))

/-- Scanner for `re.findall(r"\[([^\]]*)\]\(([^)]*)\)", line)`: left-to-right,
non-overlapping; on a failed match the engine resumes one character later.
`fuel` starts at the input length; every recursive call strictly shortens the
input, so the fuel never runs out before the scan finishes. -/
def linkScan (fuel : Nat) (cs : List Char) : List (List Char × List Char) :=
  match fuel with
  | 0 => []
  | fuel + 1 =>
    match cs with
    | [] => []
    | c :: rest =>
      if c = '[' then
        match takeUntil ']' rest with
        | some (text, after1) =>
          match after1 with
          | '(' :: r2 =>
            match takeUntil ')' r2 with
            | some (url, after2) => (text, url) :: linkScan fuel after2
            | none => linkScan fuel rest
          | _ => linkScan fuel rest
        | none => linkScan fuel rest
      else linkScan fuel rest

def linkMatches (cs : List Char) : List (List Char × List Char) :=
  linkScan cs.length cs

/-- Python word character for regex `\b`. -/
def isWordChar (c : Char) : Bool := c.isAlphanum || c = '_'

/-- Count of `re.findall(rf"\b{w}\b", s)` for a word `w` made of word
characters: positions where `w` occurs flanked by non-word characters. -/
def countWordFrom (w : List Char) : Option Char → List Char → Nat
  | _, [] => 0
  | prev, c :: rest =>
    let boundaryBefore := match prev with | none => true | some p => !isWordChar p
    let boundaryAfter :=
      match ((c :: rest).drop w.length).head? with
      | none => true
      | some q => !isWordChar q
    (if boundaryBefore && w.isPrefixOf (c :: rest) && boundaryAfter then 1 else 0)
      + countWordFrom w (some c) rest

def countWord (w cs : List Char) : Nat := countWordFrom w none cs

/-- ASCII apostrophe, used inside some issue messages. -/
def apos : String := String.singleton (Char.ofNat 39)

/-! ### Data model of critic_agent.py -/

/-- `ValidationSeverity` enum. -/
inductive ValidationSeverity where
  | error
  | warning
  | info
deriving DecidableEq, Repr, BEq

/-- `ValidationIssue` dataclass. -/
structure ValidationIssue where
  severity : ValidationSeverity
  category : String
  message : String
  line_number : Option Nat := none
  suggestion : Option String := none
deriving DecidableEq, Repr

/-- `ValidationResult` dataclass. -/
structure ValidationResult where
  passed : Bool
  issues : List ValidationIssue := []
  checked_items : Nat := 0
deriving DecidableEq, Repr

/-- `ValidationResult.add_issue`: append the issue and, if it is an error,
set `passed` to `False` (a single state update — no intermediate state). -/
def ValidationResult.add_issue (r : ValidationResult) (i : ValidationIssue) :
    ValidationResult :=
  { r with
    issues := r.issues ++ [i]
    passed := if i.severity = ValidationSeverity.error then false else r.passed }

/-- The ubiquitous `if cond: result.add_issue(...)` statement. -/
def addIf (c : Prop) [Decidable c] (r : ValidationResult) (i : ValidationIssue) :
    ValidationResult :=
  if c then r.add_issue i else r

/-- `CriticReport` dataclass. -/
structure CriticReport where
  overall_passed : Bool
  markdown_result : ValidationResult
  mermaid_result : ValidationResult
  content_result : Option ValidationResult := none
  total_errors : Nat := 0
  total_warnings : Nat := 0
  suggestions : List String := []
deriving DecidableEq, Repr

/-! ### `CriticAgent.validate_markdown_syntax`

Embedded as `validate_markdown` (the source name ends in a word the
development avoids in identifiers). -/

/-- `stripped.startswith("```")` on an already-stripped line. -/
def fenceMark (stripped : List Char) : Bool :=
  "```".data.isPrefixOf stripped

/-- A raw line whose stripped form opens or closes a fenced code block. -/
def fenceLine (line : List Char) : Bool := fenceMark (pyStrip line)

/-- Loop state of the markdown scan: the accumulated result plus the
`in_code_block` / `code_block_start` / `heading_levels` trackers. -/
structure MdState where
  result : ValidationResult
  in_code_block : Bool
  code_block_start : Nat
  heading_levels : List Nat
deriving Repr

/-- Heading checks for one non-code line (runs on the stripped line):
level bound, hierarchy warning, then record the level. -/
def headingStep (rs : ValidationResult × List Nat) (i : Nat)
    (stripped : List Char) : ValidationResult × List Nat :=
  if stripped.head? = some '#' then
    -- level = len(stripped) - len(stripped.lstrip("#"))
    let level := (stripped.takeWhile (· = '#')).length
    let r := addIf (6 < level) rs.1
      { severity := ValidationSeverity.error, category := "heading",
        message := "Heading level exceeds maximum (6)", line_number := some i }
    let r :=
      match rs.2.getLast? with
      | some last =>
        addIf (last + 1 < level) r
          { severity := ValidationSeverity.warning, category := "heading",
            message := "Heading skips from level " ++ toString last
              ++ " to " ++ toString level,
            line_number := some i,
            suggestion := some "Consider using intermediate heading levels" }
      | none => r
    (r, rs.2 ++ [level])
  else rs

/-- Link check for one line: a warning per `[text]()` with empty URL. -/
def linkStep (r : ValidationResult) (i : Nat) (line : List Char) :
    ValidationResult :=
  (linkMatches line).foldl
    (fun r m =>
      addIf (m.2 = ([] : List Char)) r
        { severity := ValidationSeverity.warning, category := "link",
          message := "Empty URL in link " ++ apos ++ String.mk m.1 ++ apos,
          line_number := some i })
    r

/-- Inline-code check: `line.count("`") - line.count("```") * 3` odd. -/
def backtickStep (r : ValidationResult) (i : Nat) (line : List Char) :
    ValidationResult :=
  let backtick_count : Int :=
    (line.countP (· = backtickChar) : Int) - (countTriple line : Int) * 3
  addIf (backtick_count % 2 ≠ 0) r
    { severity := ValidationSeverity.warning, category := "code",
      message := "Possible unclosed inline code block", line_number := some i }

/-- The heading, link and backtick checks run on every non-fence line
outside code blocks; only `result` and `heading_levels` change. -/
def contentStep (rs : ValidationResult × List Nat) (i : Nat)
    (line stripped : List Char) : ValidationResult × List Nat :=
  let rs := headingStep rs i stripped
  let r := linkStep rs.1 i line
  let r := backtickStep r i line
  (r, rs.2)

/-- Body of the `for i, line in enumerate(lines, 1)` loop. -/
def processMdLine (st : MdState) (i : Nat) (line : List Char) : MdState :=
  let stripped := pyStrip line
  if fenceMark stripped then
    if st.in_code_block then { st with in_code_block := false }
    else { st with in_code_block := true, code_block_start := i }
  else if st.in_code_block then st
  else
    let rs := contentStep (st.result, st.heading_levels) i line stripped
    { st with result := rs.1, heading_levels := rs.2 }

/-- The whole loop, with the 1-based line counter. -/
def mdScan : MdState → Nat → List (List Char) → MdState
  | st, _, [] => st
  | st, i, l :: ls => mdScan (processMdLine st i l) (i + 1) ls

/-- The issue reported for a code block left open at end of input. -/
def unclosedIssue (start : Nat) : ValidationIssue :=
  { severity := ValidationSeverity.error, category := "code",
    message := "Unclosed code block starting at line " ++ toString start,
    line_number := some start }

/-- The loop state after scanning all lines of `content`, started from the
initial state of `validate_markdown_syntax`. -/
def mdSt (content : String) : MdState :=
  let lines := splitOnNl content.data
  mdScan
    { result := { passed := true, issues := [], checked_items := lines.length }
      in_code_block := false
      code_block_start := 0
      heading_levels := [] }
    1 lines

/-- `CriticAgent.validate_markdown_syntax`. -/
def validate_markdown (content : String) : ValidationResult :=
  let st := mdSt content
  addIf st.in_code_block st.result (unclosedIssue st.code_block_start)

/-! ### `CriticAgent.validate_mermaid_charts` -/

/-- `CriticAgent.MERMAID_TYPES`. -/
def MERMAID_TYPES : List String :=
  ["flowchart", "graph", "sequenceDiagram", "classDiagram", "stateDiagram",
   "stateDiagram-v2", "erDiagram", "gantt", "pie", "journey", "gitGraph",
   "mindmap", "timeline", "quadrantChart", "xychart-beta", "block-beta"]

/-- `re.search(r"\[\s*\[", line)` (and the `]` variant): some occurrence of
the bracket, optional whitespace, the bracket again. -/
def doubleBracket (b : Char) : List Char → Bool
  | [] => false
  | c :: rest =>
    (c = b && (rest.dropWhile pyWs).head? = some b) || doubleBracket b rest

/-- `CriticAgent.MERMAID_ERROR_PATTERNS`: each regex reduced to an
equivalent line predicate, paired with its message. -/
def MERMAID_ERROR_PATTERNS : List ((List Char → Bool) × String) :=
  [ (doubleBracket '[', "Double brackets not allowed in node definitions"),
    (doubleBracket ']', "Double brackets not allowed in node definitions"),
    -- r"-->\s*$"
    (fun l => "-->".data.isSuffixOf (pyRstrip l), "Arrow must have a target node"),
    -- r"^\s*-->|^\s*---"
    (fun l =>
      "-->".data.isPrefixOf (pyLstrip l) || "---".data.isPrefixOf (pyLstrip l),
      "Arrow must have a source node"),
    -- r"subgraph\s*$"
    (fun l => "subgraph".data.isSuffixOf (pyRstrip l), "Subgraph must have a name"),
    -- r"participant\s*$"
    (fun l => "participant".data.isSuffixOf (pyRstrip l),
      "Participant must have a name") ]

/-- Index (within the run of whitespace after "```mermaid") of the last
newline, if any: where `\s*\n` greedily ends. -/
def lastNlIdx (ws : List Char) : Option Nat :=
  match ws.reverse.findIdx? (· = '\n') with
  | none => none
  | some k => some (ws.length - 1 - k)

/-- `re.findall(r"```mermaid\s*\n(.*?)```", content, re.DOTALL)`.
`fuel` starts at the input length; every recursive call strictly shortens
the remaining input, so the fuel never runs out before the scan ends. -/
def mermaidScan (fuel : Nat) (cs : List Char) : List (List Char) :=
  match fuel with
  | 0 => []
  | fuel + 1 =>
    match findSubIdx ("```mermaid".data) cs with
    | none => []
    | some i =>
      let afterTag := cs.drop (i + 10)
      let ws := afterTag.takeWhile pyWs
      match lastNlIdx ws with
      | none =>
        -- `\s*\n` cannot match here; the engine resumes one character later
        mermaidScan fuel (cs.drop (i + 1))
      | some k =>
        let body := afterTag.drop (k + 1)
        match findSubIdx ("```".data) body with
        | none => []  -- no closing fence anywhere, hence no further match
        | some j => body.take j :: mermaidScan fuel (body.drop (j + 3))

def extractMermaidBlocks (cs : List Char) : List (List Char) :=
  mermaidScan cs.length cs

/-- Per-block validation (body of the `for i, block in enumerate(...)`
loop), including the source's dead `if not block_lines` guard. -/
def processBlock (result : ValidationResult) (i : Nat) (block : List Char) :
    ValidationResult :=
  let block_lines := splitOnNl (pyStrip block)
  match block_lines with
  | [] =>
    result.add_issue
      { severity := ValidationSeverity.error, category := "mermaid",
        message := "Empty Mermaid block #" ++ toString i }
  | first :: _ =>
    let first_line := pyStrip first
    let valid_type := MERMAID_TYPES.any (fun t => t.data.isPrefixOf first_line)
    let result := addIf (!valid_type)
      result
      { severity := ValidationSeverity.error, category := "mermaid",
        message := "Invalid diagram type in block #" ++ toString i ++ ": "
          ++ apos ++ String.mk first_line ++ apos,
        suggestion := some ("Use one of: "
          ++ String.intercalate (", ") (MERMAID_TYPES.take 5) ++ "...") }
    let result :=
      (block_lines.enumFrom 1).foldl
        (fun r p =>
          MERMAID_ERROR_PATTERNS.foldl
            (fun r pm =>
              addIf (pm.1 p.2) r
                { severity := ValidationSeverity.error, category := "mermaid",
                  message := "Block #" ++ toString i ++ ", line "
                    ++ toString p.1 ++ ": " ++ pm.2 })
            r)
        result
    let open_brackets := block.countP (· = '[') + block.countP (· = '{')
      + block.countP (· = '(')
    let close_brackets := block.countP (· = ']') + block.countP (· = '}')
      + block.countP (· = ')')
    let result := addIf (open_brackets ≠ close_brackets)
      result
      { severity := ValidationSeverity.warning, category := "mermaid",
        message := "Block #" ++ toString i ++ ": Unbalanced brackets",
        suggestion := some "Check that all brackets are properly closed" }
    let subgraph_opens := countWord ("subgraph".data) block
    let subgraph_closes := countWord ("end".data) block
    addIf (subgraph_opens ≠ subgraph_closes)
      result
      { severity := ValidationSeverity.error, category := "mermaid",
        message := "Block #" ++ toString i ++ ": Unclosed subgraph ("
          ++ toString subgraph_opens ++ " opens, "
          ++ toString subgraph_closes ++ " ends)" }

/-- The fold over extracted blocks with the 1-based block counter. -/
def mermaidFold (r : ValidationResult) (i : Nat) :
    List (List Char) → ValidationResult
  | [] => r
  | b :: bs => mermaidFold (processBlock r i b) (i + 1) bs

/-- `CriticAgent.validate_mermaid_charts`. -/
def validate_mermaid_charts (content : String) : ValidationResult :=
  let blocks := extractMermaidBlocks content.data
  let result : ValidationResult :=
    { passed := true, issues := [], checked_items := blocks.length }
  if blocks.isEmpty then
    result.add_issue
      { severity := ValidationSeverity.info, category := "mermaid",
        message := "No Mermaid diagrams found in document" }
  else mermaidFold result 1 blocks

/-- `validate_mermaid_charts` with the dead `if not block_lines` guard
removed: the per-block body simply takes the first split piece.  Used to
state that the guard is unreachable. -/
def processBlockNoGuard (result : ValidationResult) (i : Nat)
    (block : List Char) : ValidationResult :=
  let block_lines := splitOnNl (pyStrip block)
  let first := block_lines.headD []
  let first_line := pyStrip first
  let valid_type := MERMAID_TYPES.any (fun t => t.data.isPrefixOf first_line)
  let result := addIf (!valid_type)
    result
    { severity := ValidationSeverity.error, category := "mermaid",
      message := "Invalid diagram type in block #" ++ toString i ++ ": "
        ++ apos ++ String.mk first_line ++ apos,
      suggestion := some ("Use one of: "
        ++ String.intercalate (", ") (MERMAID_TYPES.take 5) ++ "...") }
  let result :=
    (block_lines.enumFrom 1).foldl
      (fun r p =>
        MERMAID_ERROR_PATTERNS.foldl
          (fun r pm =>
            addIf (pm.1 p.2) r
              { severity := ValidationSeverity.error, category := "mermaid",
                message := "Block #" ++ toString i ++ ", line "
                  ++ toString p.1 ++ ": " ++ pm.2 })
          r)
      result
  let open_brackets := block.countP (· = '[') + block.countP (· = '{')
    + block.countP (· = '(')
  let close_brackets := block.countP (· = ']') + block.countP (· = '}')
    + block.countP (· = ')')
  let result := addIf (open_brackets ≠ close_brackets)
    result
    { severity := ValidationSeverity.warning, category := "mermaid",
      message := "Block #" ++ toString i ++ ": Unbalanced brackets",
      suggestion := some "Check that all brackets are properly closed" }
  let subgraph_opens := countWord ("subgraph".data) block
  let subgraph_closes := countWord ("end".data) block
  addIf (subgraph_opens ≠ subgraph_closes)
    result
    { severity := ValidationSeverity.error, category := "mermaid",
      message := "Block #" ++ toString i ++ ": Unclosed subgraph ("
        ++ toString subgraph_opens ++ " opens, "
        ++ toString subgraph_closes ++ " ends)" }

def mermaidFoldNoGuard (r : ValidationResult) (i : Nat) :
    List (List Char) → ValidationResult
  | [] => r
  | b :: bs => mermaidFoldNoGuard (processBlockNoGuard r i b) (i + 1) bs

def validate_mermaid_charts_noGuard (content : String) : ValidationResult :=
  let blocks := extractMermaidBlocks content.data
  let result : ValidationResult :=
    { passed := true, issues := [], checked_items := blocks.length }
  if blocks.isEmpty then
    result.add_issue
      { severity := ValidationSeverity.info, category := "mermaid",
        message := "No Mermaid diagrams found in document" }
  else mermaidFoldNoGuard result 1 blocks

/-! ### `CriticAgent.check_content_quality`

The LLM round trip (`self.llm.ainvoke`, response-text extraction, the
`re.search(r"\{.*\}", ...)` probe and `json.loads`) is external; its
observable outcome is modelled by `CCQOutcome`.  Everything the method does
with that outcome is embedded below. -/

/-- One element of the parsed `data["issues"]` JSON array: the three keys
the code reads, each possibly absent. -/
structure IssueJson where
  severity : Option String
  message : Option String
  suggestion : Option String
deriving DecidableEq, Repr

/-- Outcome of the external LLM interaction inside
`check_content_quality`:
* `callFailed` — `ainvoke` (or anything else inside the `try`, such as
  `json.loads`) raised, landing in the `except` handler;
* `noJson` — the response held no `{...}` fragment, so nothing is parsed;
* `parsed passedField issues` — a JSON object was parsed, with its
  optional `passed` flag and its `issues` array. -/
inductive CCQOutcome where
  | callFailed
  | noJson
  | parsed (passedField : Option Bool) (issues : List IssueJson)
deriving DecidableEq, Repr

/-- `ValidationSeverity(s)`: lookup by value, raising (`none`) otherwise. -/
def severityOfValue : String → Option ValidationSeverity
  | "error" => some ValidationSeverity.error
  | "warning" => some ValidationSeverity.warning
  | "info" => some ValidationSeverity.info
  | _ => none

/-- The warning added by the `except` handler. -/
def ccqFailureIssue : ValidationIssue :=
  { severity := ValidationSeverity.warning, category := "content",
    message := "Could not perform LLM-based content analysis" }

/-- The `for issue in data.get("issues", [])` loop.  An unknown severity
string makes `ValidationSeverity(...)` raise mid-loop; the exception is
caught by the handler, which appends the failure warning to the result
accumulated so far. -/
def addLlmIssues (r : ValidationResult) : List IssueJson → ValidationResult
  | [] => r
  | ij :: rest =>
    match severityOfValue (ij.severity.getD ("info")) with
    | none => r.add_issue ccqFailureIssue
    | some sev =>
      addLlmIssues
        (r.add_issue
          { severity := sev, category := "content",
            message := ij.message.getD (""), suggestion := ij.suggestion })
        rest

/-- `CriticAgent.check_content_quality` as a function of the LLM outcome.
Note that on the `parsed` path the method first overwrites `passed` with
the LLM-reported flag (default `True`) and only then adds the reported
issues via `add_issue`. -/
def check_content_quality (o : CCQOutcome) : ValidationResult :=
  let result : ValidationResult := { passed := true, issues := [], checked_items := 1 }
  match o with
  | CCQOutcome.callFailed => result.add_issue ccqFailureIssue
  | CCQOutcome.noJson => result
  | CCQOutcome.parsed passedField issues =>
    let result := { result with passed := passedField.getD true }
    addLlmIssues result issues

/-- Number of completion-capability calls `check_content_quality` makes:
always exactly one `ainvoke` attempt. -/
def ccqLlmCalls : Nat := 1

/-! ### `CriticAgent.full_review` -/

/-- `CriticAgent.full_review`, returning the report together with the
number of completion-capability calls made from inside the method.
`requirements` only flows into the content-quality prompt, i.e. into the
oracle `o`.  The Python `list(set(...))` for suggestions iterates a set in
unspecified order; we fix first-occurrence order of the deduplicated
list. -/
def full_review (content : String) (requirements : Option String)
    (check_content : Bool) (o : CCQOutcome) : CriticReport × Nat :=
  let markdown_result := validate_markdown content
  let mermaid_result := validate_mermaid_charts content
  let content_result : Option ValidationResult :=
    if check_content then some (check_content_quality o) else none
  let llmCalls : Nat := if check_content then ccqLlmCalls else 0
  let all_issues := markdown_result.issues ++ mermaid_result.issues
    ++ (match content_result with | some c => c.issues | none => [])
  let total_errors :=
    all_issues.countP (fun is => is.severity == ValidationSeverity.error)
  let total_warnings :=
    all_issues.countP (fun is => is.severity == ValidationSeverity.warning)
  let overall_passed := total_errors == 0
  let suggestions := (all_issues.filterMap (fun is => is.suggestion)).dedup
  ({ overall_passed := overall_passed
     markdown_result := markdown_result
     mermaid_result := mermaid_result
     content_result := content_result
     total_errors := total_errors
     total_warnings := total_warnings
     suggestions := suggestions },
   llmCalls)

end Critic

namespace Generator

/-- `DocumentType` enum from document_generator.py. -/
inductive DocumentType where
  | srs
  | functional_spec
  | api_docs
  | architecture
deriving DecidableEq, Repr

/-- The `.value` string of each `DocumentType` member. -/
def DocumentType.value : DocumentType → String
  | .srs => "srs"
  | .functional_spec => "functional_spec"
  | .api_docs => "api_docs"
  | .architecture => "architecture"

/-- Python truthiness of an `Optional[str]`: `None` and `""` are falsy. -/
def truthy : Option String → Bool
  | none => false
  | some s => s ≠ ""

/-- The metadata dict attached by `DocumentGenerator.generate` (its three
fixed keys). -/
structure GenMetadata where
  prompt_length : Nat
  response_length : Nat
  refinement_iterations : Nat
deriving DecidableEq, Repr

/-- `GeneratedDocument` dataclass (the `generated_at` default timestamp is
an external clock and is left out of the model). -/
structure GeneratedDocument where
  document_type : DocumentType
  title : String
  content : String
  library_name : Option String
  topics : List String
  metadata : GenMetadata
deriving DecidableEq, Repr

/-- `DocumentGenerator._get_library_context`: the Context7 provider call is
the oracle `ctx7`; a `Context7Error` is caught and replaced by the
placeholder note. -/
def get_library_context (library_name : String)
    (ctx7 : Except String String) : String :=
  match ctx7 with
  | .ok docs => docs
  | .error _ => "Note: Could not fetch documentation for " ++ library_name ++ "."

/-- `DocumentGenerator._get_kb_context`: the knowledge-base provider call
is the oracle `kb`; a `KnowledgeBaseError` is caught and replaced by the
empty string. -/
def get_kb_context (kb : Except String String) : String :=
  match kb with
  | .ok ctx => ctx
  | .error _ => ""

/-- Lines 122-138 of `DocumentGenerator.generate`: build `context_parts`
(each `if` guard is Python truthiness on the corresponding argument). -/
def contextParts (library_name : Option String) (topics : List String)
    (requirements : Option String) (additional_context : Option String)
    (ctx7 kb : Except String String) : List String :=
  let parts : List String := []
  let parts :=
    if truthy library_name then
      parts ++ [get_library_context (library_name.getD ("")) ctx7]
    else parts
  let parts :=
    if truthy requirements then
      let kb_context := get_kb_context kb
      if kb_context ≠ "" then parts ++ [kb_context] else parts
    else parts
  let parts :=
    if truthy additional_context then
      parts ++ ["## Additional Context\n\n" ++ additional_context.getD ("")]
    else parts
  parts

/-- `"\n\n---\n\n".join(context_parts)` — the context string handed to the
prompt template. -/
def contextString (library_name : Option String) (topics : List String)
    (requirements : Option String) (additional_context : Option String)
    (ctx7 kb : Except String String) : String :=
  String.intercalate ("\n\n---\n\n")
    (contextParts library_name topics requirements additional_context ctx7 kb)

/-- The `prompt_data` dict passed to the Jinja template. -/
structure PromptData where
  library_name : String
  requirements : String
  topics : List String
  context : String
  document_type : String
  generated_at : String
deriving DecidableEq, Repr

/-- `str.upper()` (ASCII). -/
def pyUpper (s : String) : String := String.mk (s.data.map Char.toUpper)

/-- `s.replace("_", " ")`. -/
def replaceUnderscore (s : String) : String :=
  String.mk (s.data.map (fun c => if c = '_' then ' ' else c))

/-- The `.value` string of a severity (its str-enum value). -/
def sevValue : Critic.ValidationSeverity → String
  | .error => "error"
  | .warning => "warning"
  | .info => "info"

/-- The issue strings collected for the refine prompt
(`f"[{issue.severity}] {issue.category}: {issue.message}"` and the
Mermaid variant).  Only their count matters to the loop. -/
def collectIssueStrings (report : Critic.CriticReport) : List String :=
  report.markdown_result.issues.map
      (fun is => "[" ++ sevValue is.severity ++ "] " ++ is.category ++ ": " ++ is.message)
    ++ report.mermaid_result.issues.map
      (fun is => "[" ++ sevValue is.severity ++ "] Mermaid: " ++ is.message)

/-- The `for iteration in range(max_iterations)` self-critique loop.
`llm k` is the (extracted) text of the `k`-th completion call of this
`generate` invocation (the initial generation was call `0`, so the repair
call made after `repairs` previous repairs is call `repairs + 1`).
Returns the final content, the number of repair calls made, and the final
value of the Python loop variable `iteration`.

`idxs` is the list of remaining iteration indices (`[0, 1, 2, 3, 4]` at
entry); `lastIdx` is the value `iteration` had in the previous round, so
that on normal exhaustion the Python variable keeps its last value. -/
def refineLoop (llm : Nat → String) (requirements : Option String) :
    List Nat → String → Nat → Nat → String × Nat × Nat
  | [], content, repairs, lastIdx => (content, repairs, lastIdx)
  | i :: rest, content, repairs, _ =>
    -- full_review(content, requirements=requirements, check_content=False):
    -- with check_content=False the LLM oracle is never consulted.
    let report := (Critic.full_review content requirements false
      Critic.CCQOutcome.callFailed).1
    if report.overall_passed then (content, repairs, i)
    else
      let issues := collectIssueStrings report
      if issues.isEmpty then (content, repairs, i)
      else refineLoop llm requirements rest (llm (repairs + 1)) (repairs + 1) i

/-- `DocumentGenerator.generate`.  External effects are oracles:
`ctx7`/`kb` the two context providers, `render` the Jinja template
rendering of the prompt data, `llm k` the text extracted from the `k`-th
completion call, `now` the timestamp.  Returns the document together with
the total number of completion-capability calls made (1 initial plus the
repair calls). -/
def generate (document_type : DocumentType) (library_name : Option String)
    (requirements : Option String) (topics : List String)
    (additional_context : Option String)
    (ctx7 kb : Except String String) (render : PromptData → String)
    (llm : Nat → String) (now : String) : GeneratedDocument × Nat :=
  let context := contextString library_name topics requirements
    additional_context ctx7 kb
  let prompt_data : PromptData :=
    { library_name := library_name.getD ("General")
      requirements := requirements.getD ("")
      topics := topics
      context := context
      document_type := document_type.value
      generated_at := now }
  let prompt := render prompt_data
  -- initial completion call (call 0)
  let content := llm 0
  let (content, repairs, iteration) :=
    refineLoop llm requirements [0, 1, 2, 3, 4] content 0 0
  let title := pyUpper (replaceUnderscore document_type.value)
  let title := if truthy library_name then title ++ " - " ++ library_name.getD ("") else title
  (⟨document_type, title, content, library_name, topics,
    { prompt_length := prompt.length
      response_length := content.length
      -- `iteration + 1 if "iteration" in dir() else 0`: the loop always
      -- runs, so `iteration` is always bound and the `else 0` arm is dead.
      refinement_iterations := iteration + 1 }⟩,
   1 + repairs)

end Generator

namespace Critic

/-! ### Specification predicates for the critic claims -/

/-- The `passed`/`issues` coherence invariant of the spec: `passed` is
false iff at least one contained issue has severity `error`. -/
def Inv (r : ValidationResult) : Prop :=
  r.passed = false ↔ ∃ is ∈ r.issues, is.severity = ValidationSeverity.error

instance (r : ValidationResult) : Decidable (Inv r) := by
  unfold Inv; infer_instance

/-- An error-severity issue of category "code" — within
`validate_markdown_syntax` only the unclosed-fence issue matches. -/
def isCodeError (is : ValidationIssue) : Bool :=
  is.severity == ValidationSeverity.error && is.category == "code"

/-- The fence toggle performed by one line of the markdown scan, isolated
from the rest of the loop state (`i` is the line number). -/
def fenceStep (s : Bool × Nat) (i : Nat) (stripped : List Char) : Bool × Nat :=
  if fenceMark stripped then (if s.1 then (false, s.2) else (true, i)) else s

/-- The fence toggles over a list of raw lines, starting at line `i`. -/
def fenceFold : (Bool × Nat) → Nat → List (List Char) → Bool × Nat
  | s, _, [] => s
  | s, i, l :: ls => fenceFold (fenceStep s i (pyStrip l)) (i + 1) ls

/-- A sample error issue for instantiating the invariant theorems. -/
def egErrorIssue : ValidationIssue :=
  { severity := ValidationSeverity.error, category := "code", message := "m" }

end Critic

namespace Generator

/-- The spec's description of the context assembly, written from its
words: the parts are, in fixed order, (1) the library documentation — the
provider's text or, on provider failure, a short human-readable
placeholder noting the failure; (2) the knowledge-base retrieval — the
provider's text, contributing nothing (no placeholder) on failure, and
dropped when empty; (3) the caller-supplied additional context.  Each part
is present only when its key (library name / requirements text /
additional context) is present and non-empty. -/
def specContextParts (library_name : Option String)
    (requirements additional_context : Option String)
    (ctx7 kb : Except String String) : List String :=
  (if truthy library_name then
    [match ctx7 with
     | .ok docs => docs
     | .error _ =>
       "Note: Could not fetch documentation for " ++ library_name.getD ("") ++ "."]
   else [])
  ++ (if truthy requirements then
      match kb with
      | .ok ctx => if ctx ≠ "" then [ctx] else []
      | .error _ => []
     else [])
  ++ (if truthy additional_context then
      ["## Additional Context\n\n" ++ additional_context.getD ("")]
     else [])

end Generator

/-!
## Theorems

First the planning-agent claims, then the critic-agent claims, then the
generation-loop claims.
-/

theorem planStatus_value_roundtrip (s : Planning.PlanStatus) :
    Planning.planStatusOfValue s.value = some s := by
  cases s <;> rfl

theorem sectionDict_roundtrip (s : Planning.SectionOutline) :
    Planning.sectionOfDict (Planning.asdictSection s) = s := by
  cases s; rfl

theorem sections_roundtrip (l : List Planning.SectionOutline) :
    l.map (Planning.sectionOfDict ∘ Planning.asdictSection) = l := by
  induction l with
  | nil => rfl
  | cons h t ih => simp [ih, Function.comp, sectionDict_roundtrip]

/-- C6: serializing a `DocumentPlan` with `to_dict` and reconstructing it
with `from_dict` yields a plan equal field for field to the original,
including the ordered nested `SectionOutline` list and the order of
`user_comments`. -/
theorem C6_plan_serialization_roundtrip (μ : Type) (p : Planning.DocumentPlan μ) :
    Planning.DocumentPlan.from_dict (Planning.DocumentPlan.to_dict p) = some p := by
  cases p with
  | mk plan_id status user_request document_type title sections created_at
      updated_at user_comments final_document metadata =>
    simp only [Planning.DocumentPlan.to_dict, Planning.DocumentPlan.from_dict,
      planStatus_value_roundtrip, List.map_map]
    simp [sections_roundtrip]

/-- C4 is refuted as stated: `approve_plan` does not leave `updated_at`
unchanged.  On the sample store, approving plan "p1" at a later timestamp
returns a plan whose `updated_at` differs from the stored one. -/
theorem C4_counterexample :
    Planning.egStore "p1" = some Planning.egPlan
    ∧ (Planning.approve_plan Planning.egStore "2024-02-02T00:00:00" "p1").map
        (fun p => p.updated_at) ≠ some Planning.egPlan.updated_at := by
  exact ⟨rfl, by decide⟩

/-- C4 (amended): for every existing plan, `approve_plan` sets `status` to
`approved` and refreshes `updated_at` to the current timestamp; every
other field (plan_id, user_request, document_type, title, sections,
created_at, user_comments, final_document, metadata) is unchanged. -/
theorem C4_approve_plan_sets_status_and_timestamp {μ : Type}
    (get_plan : String → Option (Planning.DocumentPlan μ))
    (now plan_id : String) (plan : Planning.DocumentPlan μ)
    (h : get_plan plan_id = some plan) :
    Planning.approve_plan get_plan now plan_id
      = some { plan with status := Planning.PlanStatus.approved, updated_at := now } := by
  simp [Planning.approve_plan, h]

theorem C4_witness :
    Planning.egStore "p1" = some Planning.egPlan
    ∧ Planning.approve_plan Planning.egStore "2024-02-02T00:00:00" "p1"
        = some { Planning.egPlan with
                  status := Planning.PlanStatus.approved
                  updated_at := "2024-02-02T00:00:00" } :=
  ⟨rfl, C4_approve_plan_sets_status_and_timestamp Planning.egStore
    "2024-02-02T00:00:00" "p1" Planning.egPlan rfl⟩

/-- C5: `generate_from_plan` returns the absence signal (`None`, not an
exception) both when the plan's status is not exactly `approved` and when
the plan does not exist; the caller sees the identical value `none` in
both cases. -/
theorem C5_generate_from_plan_absence
    (get_plan : String → Option (Planning.DocumentPlan Planning.Meta))
    (genResult : Except String String) (now plan_id : String) :
    (get_plan plan_id = none →
      Planning.generate_from_plan get_plan genResult now plan_id = none)
    ∧ (∀ plan, get_plan plan_id = some plan →
        plan.status ≠ Planning.PlanStatus.approved →
        Planning.generate_from_plan get_plan genResult now plan_id = none) := by
  constructor
  · intro h
    simp [Planning.generate_from_plan, h]
  · intro plan h hs
    simp [Planning.generate_from_plan, h, hs]

theorem C5_witness :
    (Planning.egStore "absent" = none
      ∧ Planning.generate_from_plan Planning.egStore (Except.ok "doc") "t" "absent" = none)
    ∧ (Planning.egStore "p1" = some Planning.egPlan
      ∧ Planning.egPlan.status ≠ Planning.PlanStatus.approved
      ∧ Planning.generate_from_plan Planning.egStore (Except.ok "doc") "t" "p1" = none) :=
  ⟨⟨by decide,
    (C5_generate_from_plan_absence Planning.egStore (Except.ok "doc") "t" "absent").1
      (by decide)⟩,
   ⟨rfl, by decide,
    (C5_generate_from_plan_absence Planning.egStore (Except.ok "doc") "t" "p1").2
      Planning.egPlan rfl (by decide)⟩⟩


namespace Critic

theorem add_issue_issues (r : ValidationResult) (i : ValidationIssue) :
    (r.add_issue i).issues = r.issues ++ [i] := rfl

theorem add_issue_passed (r : ValidationResult) (i : ValidationIssue) :
    (r.add_issue i).passed
      = if i.severity = ValidationSeverity.error then false else r.passed := rfl

/-- `add_issue` preserves the coherence invariant (the append and the
`passed` update are one atomic state change). -/
theorem add_issue_inv {r : ValidationResult} (i : ValidationIssue)
    (h : Inv r) : Inv (r.add_issue i) := by
  unfold Inv at h ⊢
  rw [add_issue_passed, add_issue_issues]
  by_cases hs : i.severity = ValidationSeverity.error
  · rw [if_pos hs]
    constructor
    · intro _
      exact ⟨i, by simp, hs⟩
    · intro _
      rfl
  · rw [if_neg hs]
    constructor
    · intro hp
      rcases h.1 hp with ⟨is, hmem, hsev⟩
      exact ⟨is, by simp [hmem], hsev⟩
    · rintro ⟨is, hmem, hsev⟩
      rcases List.mem_append.1 hmem with hmem | hmem
      · exact h.2 ⟨is, hmem, hsev⟩
      · rw [List.mem_singleton.1 hmem] at hsev
        exact absurd hsev hs

theorem addIf_inv (c : Prop) [Decidable c] {r : ValidationResult}
    (i : ValidationIssue) (h : Inv r) : Inv (addIf c r i) := by
  unfold addIf
  split
  · exact add_issue_inv i h
  · exact h

theorem foldl_inv {α : Type} (f : ValidationResult → α → ValidationResult)
    (hf : ∀ r a, Inv r → Inv (f r a)) :
    ∀ (l : List α) (r : ValidationResult), Inv r → Inv (l.foldl f r) := by
  intro l
  induction l with
  | nil => exact fun r h => h
  | cons a t ih => exact fun r h => ih _ (hf _ _ h)

theorem inv_init (n : Nat) :
    Inv { passed := true, issues := [], checked_items := n } := by
  unfold Inv
  constructor
  · intro h
    cases h
  · rintro ⟨is, hmem, -⟩
    exact absurd hmem (List.not_mem_nil is)

end Critic

namespace Critic

theorem headingStep_inv (rs : ValidationResult × List Nat) (i : Nat)
    (stripped : List Char) (h : Inv rs.1) : Inv (headingStep rs i stripped).1 := by
  unfold headingStep
  split
  · dsimp only
    split
    · exact addIf_inv _ _ (addIf_inv _ _ h)
    · exact addIf_inv _ _ h
  · exact h

theorem linkStep_inv (r : ValidationResult) (i : Nat) (line : List Char)
    (h : Inv r) : Inv (linkStep r i line) := by
  unfold linkStep
  exact foldl_inv _ (fun r m hr => addIf_inv _ _ hr) _ _ h

theorem backtickStep_inv (r : ValidationResult) (i : Nat) (line : List Char)
    (h : Inv r) : Inv (backtickStep r i line) := by
  unfold backtickStep
  exact addIf_inv _ _ h

theorem contentStep_inv (rs : ValidationResult × List Nat) (i : Nat)
    (line stripped : List Char) (h : Inv rs.1) :
    Inv (contentStep rs i line stripped).1 := by
  unfold contentStep
  exact backtickStep_inv _ _ _ (linkStep_inv _ _ _ (headingStep_inv _ _ _ h))

theorem processMdLine_inv (st : MdState) (i : Nat) (line : List Char)
    (h : Inv st.result) : Inv (processMdLine st i line).result := by
  unfold processMdLine
  dsimp only
  split
  · split <;> exact h
  · split
    · exact h
    · exact contentStep_inv _ _ _ _ h

theorem mdScan_inv :
    ∀ (ls : List (List Char)) (st : MdState) (i : Nat),
      Inv st.result → Inv (mdScan st i ls).result := by
  intro ls
  induction ls with
  | nil => exact fun st i h => h
  | cons l t ih => exact fun st i h => ih _ _ (processMdLine_inv st i l h)

theorem validate_markdown_inv (content : String) :
    Inv (validate_markdown content) := by
  unfold validate_markdown
  exact addIf_inv _ _ (mdScan_inv _ _ 1 (inv_init _))

end Critic

namespace Critic

theorem processBlock_inv (r : ValidationResult) (i : Nat) (b : List Char)
    (h : Inv r) : Inv (processBlock r i b) := by
  unfold processBlock
  dsimp only
  split
  · exact add_issue_inv _ h
  · refine addIf_inv _ _ (addIf_inv _ _ (foldl_inv _ ?_ _ _ (addIf_inv _ _ h)))
    intro r p hr
    exact foldl_inv _ (fun r pm hr => addIf_inv _ _ hr) _ _ hr

theorem mermaidFold_inv :
    ∀ (bs : List (List Char)) (r : ValidationResult) (i : Nat),
      Inv r → Inv (mermaidFold r i bs) := by
  intro bs
  induction bs with
  | nil => exact fun r i h => h
  | cons b t ih => exact fun r i h => ih _ _ (processBlock_inv r i b h)

theorem validate_mermaid_inv (content : String) :
    Inv (validate_mermaid_charts content) := by
  unfold validate_mermaid_charts
  dsimp only
  split
  · exact add_issue_inv _ (inv_init _)
  · exact mermaidFold_inv _ _ _ (inv_init _)

end Critic

/-- C1 is refuted as stated: `check_content_quality` can produce (and
return) a `ValidationResult` whose `passed` is false while the issue list
contains no `error`-severity issue at all.  It happens whenever the parsed
LLM response reports `"passed": false` with an empty (or error-free)
issue array, because the method overwrites `passed` with the LLM flag
before adding any issue. -/
theorem C1_counterexample :
    (Critic.check_content_quality
        (Critic.CCQOutcome.parsed (some false) [])).passed = false
    ∧ (Critic.check_content_quality
        (Critic.CCQOutcome.parsed (some false) [])).issues = []
    ∧ ¬ Critic.Inv (Critic.check_content_quality
        (Critic.CCQOutcome.parsed (some false) [])) := by
  refine ⟨rfl, rfl, ?_⟩
  decide

/-- C1 (amended): the invariant "`passed` is false iff the issue list
contains at least one `error`-severity issue" is preserved by every
`add_issue` mutation (the append and the `passed` flip are one atomic
state update), and it holds for every result produced by the two pure
validators.  It does NOT extend to `check_content_quality`, which
overwrites `passed` with the LLM-reported flag before appending the
reported issues and so can return `passed = false` with no error issue
(see `C1_counterexample`). -/
theorem C1_passed_iff_error (r : Critic.ValidationResult)
    (i : Critic.ValidationIssue) (content : String) (h : Critic.Inv r) :
    Critic.Inv (r.add_issue i)
    ∧ Critic.Inv (Critic.validate_markdown content)
    ∧ Critic.Inv (Critic.validate_mermaid_charts content) :=
  ⟨Critic.add_issue_inv i h,
   Critic.validate_markdown_inv content,
   Critic.validate_mermaid_inv content⟩

theorem C1_witness :
    Critic.Inv { passed := true, issues := [], checked_items := 0 }
    ∧ (Critic.Inv (Critic.ValidationResult.add_issue
          { passed := true, issues := [], checked_items := 0 } Critic.egErrorIssue)
      ∧ Critic.Inv (Critic.validate_markdown "# t")
      ∧ Critic.Inv (Critic.validate_mermaid_charts "x")) :=
  ⟨by decide,
   C1_passed_iff_error { passed := true, issues := [], checked_items := 0 }
     Critic.egErrorIssue "# t" (by decide)⟩

/-- C8: `full_review` with `check_content = false` makes no
completion-capability call from inside itself (call count 0 — the oracle
is never consulted) and the content-quality entry of the report is
absent. -/
theorem C8_full_review_syntax_only (content : String)
    (requirements : Option String) (o : Critic.CCQOutcome) :
    (Critic.full_review content requirements false o).2 = 0
    ∧ (Critic.full_review content requirements false o).1.content_result = none :=
  ⟨rfl, rfl⟩

namespace Critic

theorem splitOnNl_ne_nil (cs : List Char) : splitOnNl cs ≠ [] := by
  rw [splitOnNl.eq_def]
  split
  · simp
  · simp
  · split <;> simp

theorem processBlock_eq (r : ValidationResult) (i : Nat) (b : List Char) :
    processBlock r i b = processBlockNoGuard r i b := by
  unfold processBlock processBlockNoGuard
  rcases hbl : splitOnNl (pyStrip b) with _ | ⟨first, rest⟩
  · exact absurd hbl (splitOnNl_ne_nil _)
  · simp only [hbl, List.headD_cons]

theorem mermaidFold_eq :
    ∀ (bs : List (List Char)) (r : ValidationResult) (i : Nat),
      mermaidFold r i bs = mermaidFoldNoGuard r i bs := by
  intro bs
  induction bs with
  | nil => exact fun r i => rfl
  | cons b t ih =>
    intro r i
    unfold mermaidFold mermaidFoldNoGuard
    rw [processBlock_eq, ih]

end Critic

/-- C10: the "Empty Mermaid block" error of `validate_mermaid_charts` is
never emitted: stripping a block and splitting on newlines always yields a
non-empty list (even for a blank block), so the guard protecting that
branch is unreachable and the validator is extensionally equal to
`validate_mermaid_charts_noGuard`, the variant with the dead branch
removed (which constructs no "Empty Mermaid block" issue at all). -/
theorem C10_empty_mermaid_guard_unreachable :
    (∀ b : List Char, Critic.splitOnNl (Critic.pyStrip b) ≠ [])
    ∧ ∀ content, Critic.validate_mermaid_charts content
        = Critic.validate_mermaid_charts_noGuard content := by
  refine ⟨fun b => Critic.splitOnNl_ne_nil _, fun content => ?_⟩
  unfold Critic.validate_mermaid_charts Critic.validate_mermaid_charts_noGuard
  dsimp only
  split
  · rfl
  · exact Critic.mermaidFold_eq _ _ _

namespace Critic

/-! ### C7 machinery: the unclosed-fence error -/

theorem add_issue_filter_pos (r : ValidationResult) (i : ValidationIssue)
    (q : ValidationIssue → Bool) (hq : q i = true) :
    (r.add_issue i).issues.filter q = r.issues.filter q ++ [i] := by
  rw [add_issue_issues, List.filter_append]
  simp [hq]

theorem addIf_filter_neg (c : Prop) [Decidable c] (r : ValidationResult)
    (i : ValidationIssue) (q : ValidationIssue → Bool) (hq : q i = false) :
    (addIf c r i).issues.filter q = r.issues.filter q := by
  unfold addIf
  split
  · rw [add_issue_issues, List.filter_append]
    simp [hq]
  · rfl

theorem foldl_filter {α : Type} (q : ValidationIssue → Bool)
    (f : ValidationResult → α → ValidationResult)
    (hf : ∀ r a, (f r a).issues.filter q = r.issues.filter q) :
    ∀ (l : List α) (r : ValidationResult),
      (l.foldl f r).issues.filter q = r.issues.filter q := by
  intro l
  induction l with
  | nil => exact fun r => rfl
  | cons a t ih => exact fun r => (ih _).trans (hf r a)

theorem headingStep_filter (rs : ValidationResult × List Nat) (i : Nat)
    (stripped : List Char) :
    (headingStep rs i stripped).1.issues.filter isCodeError
      = rs.1.issues.filter isCodeError := by
  unfold headingStep
  split
  · dsimp only
    split
    · rw [addIf_filter_neg _ _ _ _ rfl, addIf_filter_neg _ _ _ _ rfl]
    · rw [addIf_filter_neg _ _ _ _ rfl]
  · rfl

theorem linkStep_filter (r : ValidationResult) (i : Nat) (line : List Char) :
    (linkStep r i line).issues.filter isCodeError
      = r.issues.filter isCodeError := by
  unfold linkStep
  exact foldl_filter _ _ (fun r m => addIf_filter_neg _ _ _ _ rfl) _ r

theorem backtickStep_filter (r : ValidationResult) (i : Nat) (line : List Char) :
    (backtickStep r i line).issues.filter isCodeError
      = r.issues.filter isCodeError := by
  unfold backtickStep
  exact addIf_filter_neg _ _ _ _ rfl

theorem contentStep_filter (rs : ValidationResult × List Nat) (i : Nat)
    (line stripped : List Char) :
    (contentStep rs i line stripped).1.issues.filter isCodeError
      = rs.1.issues.filter isCodeError := by
  unfold contentStep
  rw [backtickStep_filter, linkStep_filter, headingStep_filter]

theorem processMdLine_filter (st : MdState) (i : Nat) (line : List Char) :
    (processMdLine st i line).result.issues.filter isCodeError
      = st.result.issues.filter isCodeError := by
  unfold processMdLine
  dsimp only
  split
  · split <;> rfl
  · split
    · rfl
    · exact contentStep_filter _ _ _ _

theorem mdScan_filter :
    ∀ (ls : List (List Char)) (st : MdState) (i : Nat),
      (mdScan st i ls).result.issues.filter isCodeError
        = st.result.issues.filter isCodeError := by
  intro ls
  induction ls with
  | nil => exact fun st i => rfl
  | cons l t ih =>
    exact fun st i => (ih _ _).trans (processMdLine_filter st i l)

theorem processMdLine_fence (st : MdState) (i : Nat) (line : List Char) :
    ((processMdLine st i line).in_code_block,
      (processMdLine st i line).code_block_start)
      = fenceStep (st.in_code_block, st.code_block_start) i (pyStrip line) := by
  unfold processMdLine fenceStep
  dsimp only
  split
  · split <;> rfl
  · split <;> rfl

theorem mdScan_fence :
    ∀ (ls : List (List Char)) (st : MdState) (i : Nat),
      ((mdScan st i ls).in_code_block, (mdScan st i ls).code_block_start)
        = fenceFold (st.in_code_block, st.code_block_start) i ls := by
  intro ls
  induction ls with
  | nil => exact fun st i => rfl
  | cons l t ih =>
    intro st i
    unfold mdScan fenceFold
    rw [ih, processMdLine_fence]

theorem fenceFold_no_fence :
    ∀ (ls : List (List Char)) (s : Bool × Nat) (i : Nat),
      ls.countP fenceLine = 0 → fenceFold s i ls = s := by
  intro ls
  induction ls with
  | nil => exact fun s i _ => rfl
  | cons l t ih =>
    intro s i h
    rw [List.countP_cons] at h
    cases hf : fenceLine l
    · unfold fenceFold fenceStep
      rw [show fenceMark (pyStrip l) = false from hf, if_neg (by simp)]
      exact ih s (i + 1) (by simpa [hf] using h)
    · rw [hf] at h
      simp at h

theorem fenceFold_open :
    ∀ (pre : List (List Char)) (b : Bool) (n i : Nat) (l : List Char)
      (post : List (List Char)),
      pre.countP fenceLine % 2 = (if b then 1 else 0) →
      fenceLine l = true →
      post.countP fenceLine = 0 →
      fenceFold (b, n) i (pre ++ l :: post) = (true, i + pre.length) := by
  intro pre
  induction pre with
  | nil =>
    intro b n i l post hpar hl hpost
    cases b
    · rw [List.nil_append]
      unfold fenceFold fenceStep
      rw [show fenceMark (pyStrip l) = true from hl, if_pos rfl]
      dsimp only
      rw [if_neg (by simp)]
      rw [fenceFold_no_fence post _ _ hpost]
      simp
    · simp at hpar
  | cons p pre' ih =>
    intro b n i l post hpar hl hpost
    rw [List.countP_cons] at hpar
    rw [List.cons_append]
    unfold fenceFold fenceStep
    cases hp : fenceLine p
    · rw [show fenceMark (pyStrip p) = false from hp, if_neg (by simp)]
      rw [hp] at hpar
      rw [ih b n (i + 1) l post (by simpa using hpar) hl hpost]
      simp [List.length_cons]
      omega
    · rw [show fenceMark (pyStrip p) = true from hp, if_pos rfl]
      rw [hp] at hpar
      cases b
      · dsimp only
        rw [if_neg (by simp)]
        simp at hpar
        have hpar' : pre'.countP fenceLine % 2 = 1 := by omega
        rw [ih true i (i + 1) l post (by simpa using hpar') hl hpost]
        simp [List.length_cons]
        omega
      · dsimp only
        rw [if_pos rfl]
        simp at hpar
        have hpar' : pre'.countP fenceLine % 2 = 0 := by omega
        rw [ih false n (i + 1) l post (by simpa using hpar') hl hpost]
        simp [List.length_cons]
        omega

end Critic

/-- C7: if the line decomposition of the input contains a fence line `l`
(a line whose stripped form starts with three backticks) preceded by an
even number of fence lines (so `l` opens a block) and followed by none (so
the block is never closed), then `validate_markdown_syntax` reports
exactly one `error`-severity issue of category "code" — the
unclosed-code-block error — and its `line_number` is `pre.length + 1`,
the 1-based line number at which the unclosed fence starts. -/
theorem C7_unclosed_fence_reports_start_line (content : String)
    (pre post : List (List Char)) (l : List Char)
    (hsplit : Critic.splitOnNl content.data = pre ++ l :: post)
    (hfence : Critic.fenceLine l = true)
    (hpre : pre.countP Critic.fenceLine % 2 = 0)
    (hpost : post.countP Critic.fenceLine = 0) :
    (Critic.validate_markdown content).issues.filter Critic.isCodeError
      = [Critic.unclosedIssue (pre.length + 1)]
    ∧ (Critic.unclosedIssue (pre.length + 1)).line_number
        = some (pre.length + 1) := by
  have hpair : ((Critic.mdSt content).in_code_block,
      (Critic.mdSt content).code_block_start) = (true, 1 + pre.length) := by
    unfold Critic.mdSt
    rw [Critic.mdScan_fence]
    dsimp only
    rw [hsplit]
    exact Critic.fenceFold_open pre false 0 1 l post (by simpa using hpre)
      hfence hpost
  obtain ⟨h1, h2⟩ := Prod.mk.inj hpair
  constructor
  · unfold Critic.validate_markdown
    dsimp only
    unfold Critic.addIf
    rw [if_pos h1, h2, Critic.add_issue_filter_pos _ _ _ rfl]
    have hnil : (Critic.mdSt content).result.issues.filter Critic.isCodeError
        = [] := by
      unfold Critic.mdSt
      rw [Critic.mdScan_filter]
      rfl
    rw [hnil, Nat.add_comm 1 pre.length]
    rfl
  · rfl

theorem C7_witness :
    (Critic.splitOnNl ("x\n```\ny".data)
        = ["x".data] ++ ("```".data) :: ["y".data]
      ∧ Critic.fenceLine ("```".data) = true
      ∧ (["x".data] : List (List Char)).countP Critic.fenceLine % 2 = 0
      ∧ (["y".data] : List (List Char)).countP Critic.fenceLine = 0)
    ∧ ((Critic.validate_markdown "x\n```\ny").issues.filter Critic.isCodeError
        = [Critic.unclosedIssue (["x".data].length + 1)]
      ∧ (Critic.unclosedIssue (["x".data].length + 1)).line_number
          = some (["x".data].length + 1)) :=
  ⟨⟨by decide, by decide, by decide, by decide⟩,
   C7_unclosed_fence_reports_start_line "x\n```\ny" ["x".data] ["y".data]
     ("```".data) (by decide) (by decide) (by decide) (by decide)⟩

namespace Generator

theorem contextParts_eq (library_name : Option String) (topics : List String)
    (requirements additional_context : Option String)
    (ctx7 kb : Except String String) :
    contextParts library_name topics requirements additional_context ctx7 kb
      = specContextParts library_name requirements additional_context ctx7 kb := by
  unfold contextParts specContextParts get_library_context get_kb_context
  cases ctx7 <;> cases kb <;> split_ifs <;> simp_all <;> split_ifs <;> simp_all

end Generator

/-- C9: the context string handed to the generation prompt is the
`"\n\n---\n\n"`-joined concatenation, in fixed order, of (1) the library
documentation — replaced by the short human-readable placeholder
"Note: Could not fetch documentation for {library}." when the
documentation provider fails, with generation continuing; (2) the
knowledge-base retrieval — the empty string on provider failure, which is
silently dropped, no placeholder; (3) the caller-supplied additional
context.  Stated as equality with `specContextParts`, the part list
written from the spec's words. -/
theorem C9_context_order_and_failures (library_name : Option String)
    (topics : List String) (requirements additional_context : Option String)
    (ctx7 kb : Except String String) :
    Generator.contextString library_name topics requirements
        additional_context ctx7 kb
      = String.intercalate ("\n\n---\n\n")
          (Generator.specContextParts library_name requirements
            additional_context ctx7 kb) := by
  unfold Generator.contextString
  rw [Generator.contextParts_eq]

namespace Generator

theorem refineLoop_repairs_le :
    ∀ (idxs : List Nat) (llm : Nat → String) (req : Option String)
      (content : String) (repairs lastIdx : Nat),
      (refineLoop llm req idxs content repairs lastIdx).2.1
        ≤ repairs + idxs.length := by
  intro idxs
  induction idxs with
  | nil =>
    intro llm req content repairs lastIdx
    simp [refineLoop]
  | cons i rest ih =>
    intro llm req content repairs lastIdx
    unfold refineLoop
    dsimp only
    split
    · simp
    · split
      · simp
      · have h := ih llm req (llm (repairs + 1)) (repairs + 1) i
        calc (refineLoop llm req rest (llm (repairs + 1)) (repairs + 1) i).2.1
            ≤ (repairs + 1) + rest.length := h
          _ ≤ repairs + (rest.length + 1) := by omega

end Generator

/-- C2 is refuted as stated: with an oracle whose every completion is the
single line "```" (which always fails markdown validation with an
unclosed-fence error), `generate` makes 6 completion-capability calls —
the initial generation plus five repair calls, one in each of the five
loop iterations — exceeding the claimed total of 5. -/
theorem C2_counterexample :
    (Generator.generate Generator.DocumentType.srs none none [] none
        (Except.error "e") (Except.error "e") (fun pd => pd.context)
        (fun _ => "```") "t").2 = 6 := by
  rfl

/-- C2 (amended): every invocation of `generate` makes at most 6
completion-capability calls in total — 1 initial generation call plus at
most 5 repair calls, one per failing iteration of the 5-iteration
refinement loop — regardless of how many validation issues are reported
(the bound 5 = 1 + 4 claimed by the spec is off by one). -/
theorem C2_llm_calls_at_most_six (document_type : Generator.DocumentType)
    (library_name requirements additional_context : Option String)
    (topics : List String) (ctx7 kb : Except String String)
    (render : Generator.PromptData → String) (llm : Nat → String)
    (now : String) :
    (Generator.generate document_type library_name requirements topics
        additional_context ctx7 kb render llm now).2 ≤ 6 := by
  have hle := Generator.refineLoop_repairs_le [0, 1, 2, 3, 4] llm requirements
    (llm 0) 0 0
  unfold Generator.generate
  rcases hrl : Generator.refineLoop llm requirements [0, 1, 2, 3, 4] (llm 0) 0 0
    with ⟨c, rp, it⟩
  rw [hrl] at hle
  simp only [hrl]
  dsimp only at hle ⊢
  simp only [List.length_cons, List.length_nil] at hle
  omega

/-- C3 is refuted as stated: with an oracle whose completion "hello"
passes the initial review (so no repair call is made — the total call
count is 1), the returned metadata records `refinement_iterations = 1`,
not 0: the loop always binds its counter, so the `"iteration" in dir()`
fallback to 0 is dead code and the break at iteration 0 records 0 + 1. -/
theorem C3_counterexample :
    (Generator.generate Generator.DocumentType.srs none none [] none
        (Except.error "e") (Except.error "e") (fun pd => pd.context)
        (fun _ => "hello") "t").2 = 1
    ∧ (Generator.generate Generator.DocumentType.srs none none [] none
        (Except.error "e") (Except.error "e") (fun pd => pd.context)
        (fun _ => "hello") "t").1.metadata.refinement_iterations = 1
    ∧ (Generator.generate Generator.DocumentType.srs none none [] none
        (Except.error "e") (Except.error "e") (fun pd => pd.context)
        (fun _ => "hello") "t").1.metadata.refinement_iterations ≠ 0 := by
  exact ⟨rfl, rfl, by decide⟩

/-- C3 (amended): the returned metadata records the prompt length
(`prompt_length`), the final content length (`response_length`), and
`refinement_iterations` equal to one plus the loop index at which the
refinement loop stopped; in particular, when the initial review already
passes (no repair call is made, total call count 1) it records 1, not 0 —
the `else 0` arm of `iteration + 1 if "iteration" in dir() else 0` is
unreachable because the loop always binds `iteration`. -/
theorem C3_metadata_records (document_type : Generator.DocumentType)
    (library_name requirements additional_context : Option String)
    (topics : List String) (ctx7 kb : Except String String)
    (render : Generator.PromptData → String) (llm : Nat → String)
    (now : String) :
    (Generator.generate document_type library_name requirements topics
        additional_context ctx7 kb render llm now).1.metadata.response_length
      = (Generator.generate document_type library_name requirements topics
          additional_context ctx7 kb render llm now).1.content.length
    ∧ (Generator.generate document_type library_name requirements topics
        additional_context ctx7 kb render llm now).1.metadata.prompt_length
      = (render
          { library_name := library_name.getD ("General")
            requirements := requirements.getD ("")
            topics := topics
            context := Generator.contextString library_name topics requirements
              additional_context ctx7 kb
            document_type := document_type.value
            generated_at := now }).length
    ∧ ((Critic.full_review (llm 0) requirements false
          Critic.CCQOutcome.callFailed).1.overall_passed = true →
        (Generator.generate document_type library_name requirements topics
            additional_context ctx7 kb render llm now).1.metadata.refinement_iterations = 1
        ∧ (Generator.generate document_type library_name requirements topics
            additional_context ctx7 kb render llm now).2 = 1) := by
  unfold Generator.generate
  rcases hrl : Generator.refineLoop llm requirements [0, 1, 2, 3, 4] (llm 0) 0 0
    with ⟨c, rp, it⟩
  simp only [hrl]
  refine ⟨by trivial, by trivial, fun h => ?_⟩
  have hstop : Generator.refineLoop llm requirements [0, 1, 2, 3, 4] (llm 0) 0 0
      = (llm 0, 0, 0) := by
    unfold Generator.refineLoop
    dsimp only
    rw [if_pos h]
  rw [hstop] at hrl
  obtain ⟨hc, hrest⟩ := Prod.mk.inj hrl
  obtain ⟨hrp, hit⟩ := Prod.mk.inj hrest
  subst hrp
  subst hit
  exact ⟨by simp, by simp⟩

theorem C3_witness :
    (Critic.full_review ((fun _ : Nat => "hello") 0) none false
        Critic.CCQOutcome.callFailed).1.overall_passed = true
    ∧ ((Generator.generate Generator.DocumentType.srs none none [] none
          (Except.error "e") (Except.error "e") (fun pd => pd.context)
          (fun _ => "hello") "t").1.metadata.refinement_iterations = 1
      ∧ (Generator.generate Generator.DocumentType.srs none none [] none
          (Except.error "e") (Except.error "e") (fun pd => pd.context)
          (fun _ => "hello") "t").2 = 1) :=
  ⟨by decide,
   (C3_metadata_records Generator.DocumentType.srs none none none []
      (Except.error "e") (Except.error "e") (fun pd => pd.context)
      (fun _ => "hello") "t").2.2 (by decide)⟩
